import Mathlib

/-
Verification of the virtual display output subsystem of the modesetting
driver (hw/xfree86/drivers/video/modesetting/drmmode_xr_virtual.c).

The embedding below is a shallow model of the C source: the registry of
virtual outputs (ms->xr_virtual_outputs) is a list of records, the
fallible host/kernel calls (xf86OutputCreate, calloc, RROutputCreate,
dumb_bo_create, drmmode_bo_import, ...) are modelled by boolean outcome
environments, and DRM framebuffer identifiers handed out by the kernel
are modelled by a monotone counter so that each successful import yields
a fresh non-zero identifier.  The CPU (dumb buffer) allocation backend is
the one embedded for drmmode_xr_create_offscreen_framebuffer, i.e. the
unconditional fallback path of the source.
-/

namespace XrVirtual

/-- A display mode, embedding xr_mode_rec {width, height, refresh}. -/
structure XrMode where
  width : Int
  height : Int
  refresh : Int
deriving DecidableEq

/-- A virtual output record, embedding xr_virtual_output_rec together with
the RandR state the code publishes for it.  Pointer fields of the C struct
(output, crtc, randr_output, pixmap, the buffer object) are modelled by
presence flags; framebuffer_id is a Nat with 0 meaning none, pubFbId is
the value of the published FRAMEBUFFER_ID RandR property (0 = never
published); pubWidth/pubHeight/pubRefresh are the XR_WIDTH, XR_HEIGHT and
XR_REFRESH properties; pubModes and pubPreferred describe the RandR mode
list last published via RROutputSetModes; crtcMode/crtcX/crtcY/crtcRot
are the state stored on the virtual CRTC by set_mode_major. -/
structure VOut where
  name : String
  hasOutput : Bool
  hasRandr : Bool
  hasCrtc : Bool
  width : Int
  height : Int
  refresh : Int
  modes : List XrMode
  hasBo : Bool
  boWidth : Int
  boHeight : Int
  fbId : Nat
  hasPixmap : Bool
  pubFbId : Nat
  pubWidth : Int
  pubHeight : Int
  pubRefresh : Int
  pubModes : List XrMode
  pubPreferred : Int × Int
  crtcMode : Option (Int × Int)
  crtcX : Int
  crtcY : Int
  crtcRot : Int
deriving DecidableEq

/-- Driver state relevant to the subsystem: the registry list
ms->xr_virtual_outputs (head = most recently created) plus the model
counter for fresh DRM framebuffer identifiers (first id handed out is
nextFbId; identifiers are therefore non-zero as long as nextFbId > 0). -/
structure MsState where
  outputs : List VOut
  nextFbId : Nat
deriving DecidableEq

/-- List-level lookup by name, embedding the while-loop of
drmmode_xr_find_virtual_output. -/
def findVoutList (l : List VOut) (name : String) : Option VOut :=
  l.find? (fun v => v.name == name)

/-- drmmode_xr_find_virtual_output: find a virtual output by name. -/
def drmmode_xr_find_virtual_output (s : MsState) (name : String) : Option VOut :=
  findVoutList s.outputs name

/-- Remove the first record with the given name from the registry list
(the unlink performed by drmmode_xr_delete_virtual_output). -/
def removeFirst : List VOut → String → List VOut
  | [], _ => []
  | v :: rest, name => if v.name = name then rest else v :: removeFirst rest name

/-- Apply an update function to the first record with the given name
(mutation of a found record through its pointer in the C code). -/
def updateFirstBy : List VOut → String → (VOut → VOut) → List VOut
  | [], _, _ => []
  | v :: rest, name, g => if v.name = name then g v :: rest else v :: updateFirstBy rest name g

/-- The fallback mode grid of drmmode_xr_virtual_set_modes: common_widths
{1920, 2560, 3840} crossed with common_heights {1080, 1440, 2160}, all at
the given refresh, in the loop order of the source. -/
def commonModes (refresh : Int) : List XrMode :=
  [1920, 2560, 3840].flatMap (fun w =>
    [1080, 1440, 2160].map (fun h => XrMode.mk w h refresh))

/-- The mode list drmmode_xr_virtual_set_modes publishes: the custom list
vout->modes when non-empty, else the common grid at the given refresh. -/
def xrSetModesList (custom : List XrMode) (refresh : Int) : List XrMode :=
  if custom.isEmpty then commonModes refresh else custom

/-- drmmode_xr_virtual_set_modes: republish the RandR mode list of an
output (no-op when the output has no RandR object, as in the source). -/
def drmmode_xr_virtual_set_modes (v : VOut) (width height refresh : Int) : VOut :=
  if v.hasRandr = false then v
  else { v with pubModes := xrSetModesList v.modes refresh,
                pubPreferred := (width, height) }

/-- Outcomes of the fallible calls inside
drmmode_xr_create_offscreen_framebuffer (dumb-buffer backend):
dumb_bo_create, drmmode_bo_import, dumb_bo_map, CreatePixmap,
ModifyPixmapHeader. -/
structure FbEnv where
  boOk : Bool
  importOk : Bool
  mapOk : Bool
  pixmapOk : Bool
  headerOk : Bool
deriving DecidableEq

/-- All allocator steps succeed. -/
def FbEnv.ok (e : FbEnv) : Bool :=
  e.boOk && e.importOk && e.mapOk && e.pixmapOk && e.headerOk

/-- drmmode_xr_create_offscreen_framebuffer: allocate the off-screen
buffer, import it as a DRM framebuffer, map it, create and bind the
pixmap, and publish the FRAMEBUFFER_ID property.  The entry code zeroes
the record's buffer fields; on a dumb_bo_create or drmmode_bo_import
failure those fields stay zero.  Once the import has stored the fresh
identifier in vout->framebuffer_id, the later failure paths
(dumb_bo_map, CreatePixmap, ModifyPixmapHeader) call drmModeRmFB and
drmmode_bo_destroy but never reset the field, so the record retains the
stale non-zero identifier.  The published property is written only on
full success, and only when the output has a RandR object. -/
def drmmode_xr_create_offscreen_framebuffer (e : FbEnv) (freshId : Nat)
    (v : VOut) (width height : Int) : Bool × VOut :=
  let v0 : VOut := { v with hasBo := false, boWidth := width, boHeight := height,
                            fbId := 0, hasPixmap := false }
  if e.boOk = false then (false, v0)
  else if e.importOk = false then (false, v0)
  else
    let v1 : VOut := { v0 with fbId := freshId }
    if e.mapOk = false then (false, v1)
    else if e.pixmapOk = false then (false, v1)
    else if e.headerOk = false then (false, v1)
    else (true, { v1 with hasBo := true, hasPixmap := true,
                          pubFbId := if v.hasRandr then freshId else v.pubFbId })

/-- drmmode_xr_destroy_offscreen_framebuffer: destroy the pixmap, remove
the DRM framebuffer and destroy the buffer object.  The published
FRAMEBUFFER_ID property is NOT touched by the source. -/
def drmmode_xr_destroy_offscreen_framebuffer (v : VOut) : VOut :=
  { v with hasPixmap := false, fbId := 0, hasBo := false, boWidth := 0, boHeight := 0 }

/-- Outcomes of the fallible object-construction calls of
drmmode_xr_create_virtual_output: xf86OutputCreate, calloc of the
driver-private block, RROutputCreate, drmmode_xr_create_virtual_crtc,
calloc of the xr_virtual_output_rec, plus the allocator outcomes. -/
structure CreateEnv where
  outputOk : Bool
  privOk : Bool
  randrOk : Bool
  crtcOk : Bool
  voutOk : Bool
  fb : FbEnv
deriving DecidableEq

/-- Environment in which every construction step succeeds. -/
def CreateEnv.allOk : CreateEnv :=
  ⟨true, true, true, true, true, ⟨true, true, true, true, true⟩⟩

/-- drmmode_xr_create_virtual_output: refuse duplicate names; on failure
of any of the five object-construction steps undo everything acquired so
far and return NULL with the registry untouched; otherwise build the
record, publish modes and the dimension properties, attempt the
off-screen framebuffer (failure of which is explicitly non-fatal in the
source: the record is still added), and prepend the record to the
registry list. -/
def drmmode_xr_create_virtual_output (e : CreateEnv) (s : MsState)
    (name : String) (width height refresh : Int) : Option VOut × MsState :=
  if (drmmode_xr_find_virtual_output s name).isSome then (none, s)
  else if e.outputOk = false then (none, s)
  else if e.privOk = false then (none, s)
  else if e.randrOk = false then (none, s)
  else if e.crtcOk = false then (none, s)
  else if e.voutOk = false then (none, s)
  else
    let v : VOut :=
      { name := name, hasOutput := true, hasRandr := true, hasCrtc := true,
        width := width, height := height, refresh := refresh, modes := [],
        hasBo := false, boWidth := 0, boHeight := 0, fbId := 0, hasPixmap := false,
        pubFbId := 0, pubWidth := width, pubHeight := height, pubRefresh := refresh,
        pubModes := [], pubPreferred := (0, 0),
        crtcMode := none, crtcX := 0, crtcY := 0, crtcRot := 0 }
    let v := drmmode_xr_virtual_set_modes v width height refresh
    let r := drmmode_xr_create_offscreen_framebuffer e.fb s.nextFbId v width height
    let bump := if e.fb.boOk && e.fb.importOk then s.nextFbId + 1 else s.nextFbId
    (some r.2, { outputs := r.2 :: s.outputs, nextFbId := bump })

/-- Teardown steps of drmmode_xr_delete_virtual_output, in the order the
source performs them (one constructor per observable step). -/
inductive DelEvent where
  | removeFromTable
  | destroyFramebuffer
  | destroyCrtc
  | disconnectNotify
  | destroyRandrOutput
  | destroyXf86Output
  | freeRecord
deriving DecidableEq

/-- drmmode_xr_delete_virtual_output: fail (no-op) on an unknown name;
otherwise unlink the record from the registry list first, then destroy
the off-screen framebuffer (the drmmode pointer is reachable iff the
xf86 output and its private block exist), then the RandR and xf86 CRTC,
then mark the RandR output disconnected, notify listeners and destroy
it, then destroy the xf86 output, and finally free the record.  The
returned trace lists the steps taken in order. -/
def drmmode_xr_delete_virtual_output (s : MsState) (name : String) :
    Bool × MsState × List DelEvent :=
  match drmmode_xr_find_virtual_output s name with
  | none => (false, s, [])
  | some v =>
    let tr : List DelEvent :=
      [DelEvent.removeFromTable]
      ++ (if v.hasOutput then [DelEvent.destroyFramebuffer] else [])
      ++ (if v.hasCrtc then [DelEvent.destroyCrtc] else [])
      ++ (if v.hasRandr then [DelEvent.disconnectNotify, DelEvent.destroyRandrOutput] else [])
      ++ (if v.hasOutput then [DelEvent.destroyXf86Output] else [])
      ++ [DelEvent.freeRecord]
    (true, { s with outputs := removeFirst s.outputs name }, tr)

/-- drmmode_xr_resize_virtual_output, per-record core: guard on the
output and RandR objects, store the new dimensions and refresh,
republish the mode list and rewrite the XR_WIDTH/XR_HEIGHT/XR_REFRESH
properties.  The framebuffer fields and the published FRAMEBUFFER_ID are
not touched by the source. -/
def drmmode_xr_resize_vout (v : VOut) (width height refresh : Int) : Bool × VOut :=
  if v.hasOutput = false then (false, v)
  else if v.hasRandr = false then (false, v)
  else
    let v := { v with width := width, height := height, refresh := refresh }
    let v := drmmode_xr_virtual_set_modes v width height refresh
    let v := { v with pubWidth := width, pubHeight := height, pubRefresh := refresh }
    (true, v)

/-- drmmode_xr_resize_virtual_output lifted to the registry: the C
function receives a pointer to a registered record and mutates it in
place. -/
def drmmode_xr_resize_virtual_output (s : MsState) (name : String)
    (width height refresh : Int) : Bool × MsState :=
  match drmmode_xr_find_virtual_output s name with
  | none => (false, s)
  | some v =>
    let l := updateFirstBy s.outputs name
      (fun u => (drmmode_xr_resize_vout u width height refresh).2)
    ((drmmode_xr_resize_vout v width height refresh).1, { s with outputs := l })

/-- The integer resize properties handled by
drmmode_xr_virtual_set_property. -/
inductive XrProp where
  | width
  | height
  | refresh
deriving DecidableEq

/-- drmmode_xr_virtual_set_property (resize path): find the record for
the output, take the new value for the written property and the current
values for the others, validate width, height ∈ [64, 16384] and
refresh ∈ [1, 1000], and on success apply
drmmode_xr_resize_virtual_output; reject everything else untouched. -/
def drmmode_xr_virtual_set_property (s : MsState) (name : String)
    (prop : XrProp) (value : Int) : Bool × MsState :=
  match drmmode_xr_find_virtual_output s name with
  | none => (false, s)
  | some v =>
    let nw : Int := match prop with | .width => value | _ => v.width
    let nh : Int := match prop with | .height => value | _ => v.height
    let nr : Int := match prop with | .refresh => value | _ => v.refresh
    if nw < 64 ∨ nw > 16384 ∨ nh < 64 ∨ nh > 16384 ∨ nr < 1 ∨ nr > 1000 then
      (false, s)
    else
      drmmode_xr_resize_virtual_output s name nw nh nr

/-- Decimal integer head of a character list, embedding the strtol calls
of the command parser (optional sign followed by digits; no digits means
value 0 with nothing consumed, as strtol behaves). -/
def strtolModel (cs : List Char) : Int × List Char :=
  match cs with
  | '-' :: rest =>
    let p := rest.span Char.isDigit
    if p.1.isEmpty then (0, cs)
    else (-(Int.ofNat (p.1.foldl (fun a c => a * 10 + (c.toNat - 48)) 0)), p.2)
  | _ =>
    let p := cs.span Char.isDigit
    if p.1.isEmpty then (0, cs)
    else (Int.ofNat (p.1.foldl (fun a c => a * 10 + (c.toNat - 48)) 0), p.2)

/-- Split a character list at the first colon (the strchr call of the
CREATE_XR_OUTPUT parser): the name part, and the remainder after the
colon when one exists. -/
def splitFirstColon : List Char → List Char × Option (List Char)
  | [] => ([], none)
  | c :: rest =>
    if c = ':' then ([], some rest)
    else
      let p := splitFirstColon rest
      (c :: p.1, p.2)

/-- The CREATE_XR_OUTPUT payload parser of drmmode_xr_manager_set_property:
"NAME:WIDTH:HEIGHT[:REFRESH]", with width, height and refresh defaulting
to 1920, 1080 and 60, each later field parsed only when the preceding
terminator is a colon. -/
def parseCreatePayload (payload : String) : String × Int × Int × Int :=
  let cs := payload.toList
  let sp := splitFirstColon cs
  let name := String.mk sp.1
  match sp.2 with
  | none => (name, 1920, 1080, 60)
  | some rest =>
    let pw := strtolModel rest
    match pw.2 with
    | ':' :: rest2 =>
      let ph := strtolModel rest2
      match ph.2 with
      | ':' :: rest4 => (name, pw.1, ph.1, (strtolModel rest4).1)
      | _ => (name, pw.1, ph.1, 60)
    | _ => (name, pw.1, 1080, 60)

/-- The two control commands of the manager endpoint. -/
inductive ManagerProp where
  | createOutput
  | deleteOutput
deriving DecidableEq

/-- drmmode_xr_manager_set_property: parse the payload; for
CREATE_XR_OUTPUT reject an empty name and otherwise delegate to
drmmode_xr_create_virtual_output (no bounds validation is performed in
the source); for DELETE_XR_OUTPUT delegate the whole payload as name to
drmmode_xr_delete_virtual_output. -/
def drmmode_xr_manager_set_property (e : CreateEnv) (s : MsState)
    (prop : ManagerProp) (payload : String) : Bool × MsState :=
  match prop with
  | .createOutput =>
    let q := parseCreatePayload payload
    if q.1 = "" then (false, s)
    else
      let r := drmmode_xr_create_virtual_output e s q.1 q.2.1 q.2.2.1 q.2.2.2
      (r.1.isSome, r.2)
  | .deleteOutput =>
    let r := drmmode_xr_delete_virtual_output s payload
    (r.1, r.2.1)

/-- Per-record effect of drmmode_xr_virtual_crtc_set_mode_major on the
owning virtual output: when the mode dimensions differ from the stored
ones, destroy the off-screen framebuffer and attempt to recreate it at
the new size — on success republish the identifier and store the new
dimensions, on failure continue with the buffer gone (and the previously
published identifier left stale); in every case store the CRTC mode, x,
y and rotation. -/
def xr_crtc_apply_mode (e : FbEnv) (freshId : Nat) (v : VOut)
    (mw mh rot x y : Int) : VOut :=
  let v1 :=
    if v.width = mw ∧ v.height = mh then v
    else
      let vd := drmmode_xr_destroy_offscreen_framebuffer v
      let r := drmmode_xr_create_offscreen_framebuffer e freshId vd mw mh
      if r.1 then { r.2 with width := mw, height := mh } else r.2
  { v1 with crtcMode := some (mw, mh), crtcX := x, crtcY := y, crtcRot := rot }

/-- drmmode_xr_virtual_crtc_set_mode_major: with no mode, or with no
owning virtual output found for the CRTC, just return TRUE; otherwise
apply xr_crtc_apply_mode to the owning record.  The source returns TRUE
on every path, including when the framebuffer reallocation failed. -/
def drmmode_xr_virtual_crtc_set_mode_major (e : FbEnv) (s : MsState)
    (name : String) (mode : Option (Int × Int)) (rot x y : Int) : Bool × MsState :=
  match mode with
  | none => (true, s)
  | some (mw, mh) =>
    match drmmode_xr_find_virtual_output s name with
    | none => (true, s)
    | some v =>
      let bump := if (¬ (v.width = mw ∧ v.height = mh)) ∧ e.boOk = true ∧ e.importOk = true
                  then s.nextFbId + 1 else s.nextFbId
      let l := updateFirstBy s.outputs name
        (fun u => xr_crtc_apply_mode e s.nextFbId u mw mh rot x y)
      (true, { outputs := l, nextFbId := bump })

/-- Identifiers for the output callback handlers that appear in the
function tables of the source. -/
inductive HandlerId where
  | defaultCreateResources
  | defaultDestroy
  | defaultDetect
  | defaultGetProperty
  | defaultSetProperty
  | xrCreateResources
  | xrDestroy
  | xrDetect
deriving DecidableEq

/-- The slots of xf86OutputFuncsRec relevant to the subsystem. -/
structure OutputFuncs where
  create_resources : HandlerId
  destroy : HandlerId
  detect : HandlerId
  get_property : HandlerId
  set_property : HandlerId
deriving DecidableEq

/-- drmmode_output_funcs: the regular output function table of
drmmode_display.c, all slots at their default handlers. -/
def drmmode_output_funcs : OutputFuncs :=
  { create_resources := HandlerId.defaultCreateResources,
    destroy := HandlerId.defaultDestroy,
    detect := HandlerId.defaultDetect,
    get_property := HandlerId.defaultGetProperty,
    set_property := HandlerId.defaultSetProperty }

/-- drmmode_xr_virtual_output_funcs_init: copy the regular table and
override create_resources, destroy and detect — and nothing else.  In
particular no get_property hook is installed, so no code observes reads
of the FRAMEBUFFER_ID property. -/
def drmmode_xr_virtual_output_funcs_init (base : OutputFuncs) : OutputFuncs :=
  { base with create_resources := HandlerId.xrCreateResources,
              destroy := HandlerId.xrDestroy,
              detect := HandlerId.xrDetect }

/-- Boolean subsequence test on teardown traces: sub occurs in trace in
order (used to state ordering properties of the delete teardown). -/
def isSubseqOf : List DelEvent → List DelEvent → Bool
  | [], _ => true
  | _ :: _, [] => false
  | a :: sub, b :: trace =>
    if a = b then isSubseqOf sub trace else isSubseqOf (a :: sub) trace

/-! Helper definitions and lemmas shared by several results. -/

/-- A fully formed virtual output as produced by a successful create:
1920x1080@60 with published framebuffer identifier 7. -/
def sampleVOut : VOut :=
  { name := "XR-0", hasOutput := true, hasRandr := true, hasCrtc := true,
    width := 1920, height := 1080, refresh := 60, modes := [],
    hasBo := true, boWidth := 1920, boHeight := 1080, fbId := 7, hasPixmap := true,
    pubFbId := 7, pubWidth := 1920, pubHeight := 1080, pubRefresh := 60,
    pubModes := commonModes 60, pubPreferred := (1920, 1080),
    crtcMode := none, crtcX := 0, crtcY := 0, crtcRot := 0 }

/-- A registry holding exactly sampleVOut. -/
def sampleState : MsState := ⟨[sampleVOut], 8⟩

theorem create_offscreen_fb_keeps_name (e : FbEnv) (i : Nat) (v : VOut) (w h : Int) :
    ((drmmode_xr_create_offscreen_framebuffer e i v w h).2).name = v.name := by
  obtain ⟨b1, b2, b3, b4, b5⟩ := e
  cases b1 <;> cases b2 <;> cases b3 <;> cases b4 <;> cases b5 <;> rfl

theorem set_modes_keeps_name (v : VOut) (w h r : Int) :
    (drmmode_xr_virtual_set_modes v w h r).name = v.name := by
  unfold drmmode_xr_virtual_set_modes
  split <;> rfl

theorem find_none_not_mem {l : List VOut} {name : String}
    (h : findVoutList l name = none) : name ∉ l.map VOut.name := by
  intro hmem
  rcases List.mem_map.mp hmem with ⟨v, hv, hvname⟩
  have hnone := List.find?_eq_none.mp h v hv
  simp [hvname] at hnone

theorem resize_vout_keeps_fb (v : VOut) (w h r : Int) :
    ((drmmode_xr_resize_vout v w h r).2).pubFbId = v.pubFbId
    ∧ ((drmmode_xr_resize_vout v w h r).2).fbId = v.fbId := by
  simp only [drmmode_xr_resize_vout, drmmode_xr_virtual_set_modes]
  constructor <;> (repeat' split) <;> rfl

theorem map_updateFirstBy {α : Type} (f : VOut → α) (g : VOut → VOut)
    (hg : ∀ v, f (g v) = f v) (l : List VOut) (name : String) :
    (updateFirstBy l name g).map f = l.map f := by
  induction l with
  | nil => rfl
  | cons v rest ih =>
    unfold updateFirstBy
    split
    · simp [hg]
    · simp [ih]

theorem resize_wrapper_keeps_fb (s : MsState) (name : String) (w h r : Int) :
    (((drmmode_xr_resize_virtual_output s name w h r).2).outputs.map VOut.pubFbId
        = s.outputs.map VOut.pubFbId)
    ∧ (((drmmode_xr_resize_virtual_output s name w h r).2).outputs.map VOut.fbId
        = s.outputs.map VOut.fbId) := by
  unfold drmmode_xr_resize_virtual_output
  cases hf : drmmode_xr_find_virtual_output s name with
  | none => exact ⟨rfl, rfl⟩
  | some v =>
    refine ⟨?_, ?_⟩
    · exact map_updateFirstBy VOut.pubFbId _ (fun u => (resize_vout_keeps_fb u w h r).1) _ _
    · exact map_updateFirstBy VOut.fbId _ (fun u => (resize_vout_keeps_fb u w h r).2) _ _

/-! Claim theorems. -/

/-- C4 (code_bug evidence): the virtual-output function table
initialization overrides only create_resources, destroy and detect; the
get_property slot keeps the default handler, so no code observes reads
of the FRAMEBUFFER_ID attribute — there is no keep-alive hook, no
last-access timestamp and no Active/Standby controller in the source. -/
theorem funcs_init_installs_no_keepalive_hook :
    (drmmode_xr_virtual_output_funcs_init drmmode_output_funcs).get_property
      = HandlerId.defaultGetProperty := rfl

/-- C7: deleting an unknown name fails and is a complete no-op — the
registry (and hence its size and every registered output) is unchanged
and no teardown step runs. -/
theorem delete_unknown_is_noop (s : MsState) (name : String)
    (h : drmmode_xr_find_virtual_output s name = none) :
    drmmode_xr_delete_virtual_output s name = (false, s, []) := by
  unfold drmmode_xr_delete_virtual_output
  rw [h]

theorem delete_unknown_is_noop_witness :
    drmmode_xr_delete_virtual_output ⟨[], 1⟩ "XR-1" = (false, ⟨[], 1⟩, []) :=
  delete_unknown_is_noop ⟨[], 1⟩ "XR-1" rfl

/-- C2 (counterexample): resizing the sample output from 1920x1080 to
3840x1080 through the XR_WIDTH property succeeds, yet the published
framebuffer identifier afterwards equals the identifier published before
(7), refuting the claim that it is always a new different identifier. -/
theorem resize_new_identifier_counterexample :
    (drmmode_xr_virtual_set_property sampleState "XR-0" XrProp.width 3840).1 = true
    ∧ ((drmmode_xr_virtual_set_property sampleState "XR-0" XrProp.width 3840).2).outputs.map
        VOut.pubFbId = [7]
    ∧ sampleState.outputs.map VOut.pubFbId = [7] := by
  refine ⟨rfl, rfl, rfl⟩

/-- C2 (amended): a resize of a virtual output — whether through
drmmode_xr_resize_virtual_output directly or through a resize-property
write — never reallocates the off-screen buffer: both the published
FRAMEBUFFER_ID attribute and the internal framebuffer identifier of
every registered output are left exactly as they were.  A new identifier
appears only when a later mode-set on the output's virtual CRTC with
different dimensions reallocates the buffer. -/
theorem resize_never_changes_identifier (s : MsState) (name : String)
    (w h r value : Int) (prop : XrProp) :
    (((drmmode_xr_resize_virtual_output s name w h r).2).outputs.map VOut.pubFbId
        = s.outputs.map VOut.pubFbId)
    ∧ (((drmmode_xr_resize_virtual_output s name w h r).2).outputs.map VOut.fbId
        = s.outputs.map VOut.fbId)
    ∧ (((drmmode_xr_virtual_set_property s name prop value).2).outputs.map VOut.pubFbId
        = s.outputs.map VOut.pubFbId) := by
  refine ⟨(resize_wrapper_keeps_fb s name w h r).1,
          (resize_wrapper_keeps_fb s name w h r).2, ?_⟩
  unfold drmmode_xr_virtual_set_property
  cases hf : drmmode_xr_find_virtual_output s name with
  | none => rfl
  | some v =>
    dsimp only
    split
    · rfl
    · exact (resize_wrapper_keeps_fb s name _ _ _).1

/-- C5: a resize that keeps the current dimensions and changes only the
refresh succeeds, leaves the framebuffer fields and the published
identifier untouched, stores the new refresh, rewrites the refresh
property and republishes the mode list; when the published dimension
properties are in sync with the stored dimensions (as every create and
property-driven resize leaves them), nothing else changes. -/
theorem resize_same_dims_updates_only_refresh (v : VOut) (r2 : Int)
    (ho : v.hasOutput = true) (hr : v.hasRandr = true)
    (hw : v.pubWidth = v.width) (hh : v.pubHeight = v.height) :
    drmmode_xr_resize_vout v v.width v.height r2 =
      (true, { v with refresh := r2, pubRefresh := r2,
                      pubModes := xrSetModesList v.modes r2,
                      pubPreferred := (v.width, v.height) }) := by
  obtain ⟨nm, f1, f2, f3, wd, ht, rf, md, b1, bw, bh, fb, px, p1, p2, p3, p4, p5, p6, c1, c2, c3, c4⟩ := v
  simp only at ho hr hw hh
  subst ho hr hw hh
  simp [drmmode_xr_resize_vout, drmmode_xr_virtual_set_modes]

theorem resize_same_dims_updates_only_refresh_witness :
    drmmode_xr_resize_vout sampleVOut 1920 1080 120 =
      (true, { sampleVOut with refresh := 120, pubRefresh := 120,
                               pubModes := xrSetModesList sampleVOut.modes 120,
                               pubPreferred := (1920, 1080) }) :=
  resize_same_dims_updates_only_refresh sampleVOut 120 rfl rfl rfl rfl

/-- C6: creating an output whose name is already registered fails and
returns the state unchanged — in particular the existing output's
stored width, height, refresh and published identifier are untouched —
and create preserves distinctness of registered names, so names stay
unique in the registry. -/
theorem create_duplicate_fails_names_unique (e : CreateEnv) (s : MsState)
    (name : String) (width height refresh : Int) :
    ((drmmode_xr_find_virtual_output s name).isSome = true →
      drmmode_xr_create_virtual_output e s name width height refresh = (none, s))
    ∧ ((s.outputs.map VOut.name).Nodup →
      (((drmmode_xr_create_virtual_output e s name width height refresh).2).outputs.map
          VOut.name).Nodup) := by
  constructor
  · intro h
    unfold drmmode_xr_create_virtual_output
    rw [if_pos h]
  · intro hn
    unfold drmmode_xr_create_virtual_output
    by_cases hf : (drmmode_xr_find_virtual_output s name).isSome = true
    · rw [if_pos hf]
      exact hn
    · rw [if_neg hf]
      have hfn : drmmode_xr_find_virtual_output s name = none := by
        cases hq : drmmode_xr_find_virtual_output s name with
        | none => rfl
        | some v => rw [hq] at hf; simp at hf
      have hnm : name ∉ s.outputs.map VOut.name := find_none_not_mem hfn
      repeat' split
      all_goals try exact hn
      all_goals
        dsimp only
        simp only [List.map_cons]
        refine List.nodup_cons.mpr ⟨?_, hn⟩
        rw [create_offscreen_fb_keeps_name, set_modes_keeps_name]
        exact hnm

theorem create_duplicate_fails_names_unique_witness :
    drmmode_xr_create_virtual_output CreateEnv.allOk sampleState "XR-0" 640 480 60
      = (none, sampleState) :=
  (create_duplicate_fails_names_unique CreateEnv.allOk sampleState "XR-0" 640 480 60).1 rfl

theorem splitFirstColon_no_colon (cs : List Char) (h : ∀ c ∈ cs, c ≠ ':') :
    splitFirstColon cs = (cs, none) := by
  induction cs with
  | nil => rfl
  | cons c rest ih =>
    unfold splitFirstColon
    rw [if_neg (h c (List.mem_cons_self c rest))]
    rw [ih (fun d hd => h d (List.mem_cons_of_mem c hd))]

theorem string_mk_toList (s : String) : String.mk s.toList = s := rfl

theorem parseCreatePayload_no_colon (payload : String)
    (h : ∀ c ∈ payload.toList, c ≠ ':') :
    parseCreatePayload payload = (payload, 1920, 1080, 60) := by
  unfold parseCreatePayload
  dsimp only
  rw [splitFirstColon_no_colon payload.toList h]
  rfl

/-- C10: a create command whose payload is just a name, with no
colon-separated fields, is accepted: with the name non-empty and unused
(and the construction calls succeeding) the output is created with the
default dimensions 1920x1080 at 60 Hz. -/
theorem manager_create_default_dimensions (s : MsState) (payload : String)
    (hc : ∀ c ∈ payload.toList, c ≠ ':') (hne : payload ≠ "")
    (hfind : drmmode_xr_find_virtual_output s payload = none) :
    (drmmode_xr_manager_set_property CreateEnv.allOk s ManagerProp.createOutput payload).1 = true
    ∧ ∃ v, ((drmmode_xr_manager_set_property CreateEnv.allOk s
               ManagerProp.createOutput payload).2).outputs = v :: s.outputs
        ∧ v.name = payload ∧ v.width = 1920 ∧ v.height = 1080 ∧ v.refresh = 60 := by
  unfold drmmode_xr_manager_set_property
  rw [parseCreatePayload_no_colon payload hc]
  dsimp only
  rw [if_neg hne]
  unfold drmmode_xr_create_virtual_output
  rw [hfind]
  simp only [Option.isSome_none, Bool.false_eq_true, if_false, CreateEnv.allOk]
  refine ⟨rfl, _, rfl, ?_, rfl, rfl, rfl⟩
  rw [create_offscreen_fb_keeps_name, set_modes_keeps_name]

theorem manager_create_default_dimensions_witness :
    (drmmode_xr_manager_set_property CreateEnv.allOk ⟨[], 1⟩
        ManagerProp.createOutput "XR-0").1 = true
    ∧ ∃ v, ((drmmode_xr_manager_set_property CreateEnv.allOk ⟨[], 1⟩
               ManagerProp.createOutput "XR-0").2).outputs = v :: ([] : List VOut)
        ∧ v.name = "XR-0" ∧ v.width = 1920 ∧ v.height = 1080 ∧ v.refresh = 60 :=
  manager_create_default_dimensions ⟨[], 1⟩ "XR-0" (by decide) (by decide) rfl

/-- C3 (counterexample): the create command "BIG:20000:20000:2000" has
width and height above 16384 and refresh above 1000, yet it succeeds and
registers an output with exactly those out-of-range values — refuting
the claim that such a create fails with no side effect. -/
theorem create_bounds_counterexample :
    (drmmode_xr_manager_set_property CreateEnv.allOk ⟨[], 1⟩
        ManagerProp.createOutput "BIG:20000:20000:2000").1 = true
    ∧ ((drmmode_xr_manager_set_property CreateEnv.allOk ⟨[], 1⟩
          ManagerProp.createOutput "BIG:20000:20000:2000").2).outputs.map
        (fun v => (v.width, v.height, v.refresh)) = [(20000, 20000, 2000)] := by
  refine ⟨rfl, by decide⟩

/-- C3 (amended): neither the command handler nor
drmmode_xr_create_virtual_output validates width, height or refresh —
with an unused name and the construction calls succeeding, create
accepts any values, including ones outside [64, 16384] and [1, 1000],
and stores them unchanged.  The bounds are enforced only by the
per-output resize property handler (drmmode_xr_virtual_set_property). -/
theorem create_performs_no_bounds_validation (s : MsState) (name : String)
    (w h r : Int) (hfind : drmmode_xr_find_virtual_output s name = none) :
    ((drmmode_xr_create_virtual_output CreateEnv.allOk s name w h r).1).isSome = true
    ∧ ∃ v, ((drmmode_xr_create_virtual_output CreateEnv.allOk s name w h r).2).outputs
          = v :: s.outputs
        ∧ v.width = w ∧ v.height = h ∧ v.refresh = r := by
  unfold drmmode_xr_create_virtual_output
  rw [hfind]
  simp only [Option.isSome_none, Bool.false_eq_true, if_false, CreateEnv.allOk]
  exact ⟨rfl, _, rfl, rfl, rfl, rfl⟩

theorem create_performs_no_bounds_validation_witness :
    ((drmmode_xr_create_virtual_output CreateEnv.allOk ⟨[], 1⟩ "BIG" 20000 20000 2000).1).isSome
        = true
    ∧ ∃ v, ((drmmode_xr_create_virtual_output CreateEnv.allOk ⟨[], 1⟩
               "BIG" 20000 20000 2000).2).outputs = v :: ([] : List VOut)
        ∧ v.width = 20000 ∧ v.height = 20000 ∧ v.refresh = 2000 :=
  create_performs_no_bounds_validation ⟨[], 1⟩ "BIG" 20000 20000 2000 rfl

/-- An otherwise-successful create environment in which the very first
allocator step (dumb_bo_create) fails. -/
def fbFailEnv : CreateEnv :=
  ⟨true, true, true, true, true, ⟨false, true, true, true, true⟩⟩

/-- C1 (counterexample): creating "XR-0" on an empty registry while the
buffer-object allocation fails still adds a record to the registry, and
the added record has no buffer, no internal framebuffer identifier and
no published identifier — refuting both the rollback statement and the
invariant that every registered record has a fully-formed buffer and a
non-zero published identifier. -/
theorem create_rollback_counterexample :
    ((drmmode_xr_create_virtual_output fbFailEnv ⟨[], 1⟩ "XR-0" 1920 1080 60).1).isSome = true
    ∧ ((drmmode_xr_create_virtual_output fbFailEnv ⟨[], 1⟩ "XR-0" 1920 1080 60).2).outputs.map
        (fun v => (v.pubFbId, v.fbId, v.hasBo, v.hasPixmap)) = [(0, 0, false, false)] := by
  refine ⟨rfl, by decide⟩

/-- C1 (amended): a failure of any of the five object-construction steps
(output, private block, RandR output, CRTC, record allocation) rolls
back every resource acquired so far and adds no record — the state is
returned exactly unchanged; but a failure inside the off-screen
framebuffer allocation does NOT fail the create: the allocator releases
its partial resources and the record is still added to the registry,
with no buffer, no pixmap and no published identifier.  The record's
internal framebuffer_id is 0 when the failure precedes the kernel import
(dumb_bo_create or drmmode_bo_import), but when a post-import step
(dumb_bo_map, CreatePixmap, ModifyPixmapHeader) fails the source removes
the kernel framebuffer without resetting the field, so the registered
record retains the stale freshly-imported identifier. -/
theorem create_rollback_amended (e : CreateEnv) (s : MsState) (name : String)
    (w h r : Int) (hfind : drmmode_xr_find_virtual_output s name = none) :
    ((e.outputOk = false ∨ e.privOk = false ∨ e.randrOk = false ∨ e.crtcOk = false
        ∨ e.voutOk = false) →
      drmmode_xr_create_virtual_output e s name w h r = (none, s))
    ∧ (e.outputOk = true → e.privOk = true → e.randrOk = true → e.crtcOk = true →
        e.voutOk = true → e.fb.ok = false →
        ∃ v, (drmmode_xr_create_virtual_output e s name w h r).1 = some v
          ∧ ((drmmode_xr_create_virtual_output e s name w h r).2).outputs = v :: s.outputs
          ∧ v.hasBo = false ∧ v.hasPixmap = false ∧ v.pubFbId = 0
          ∧ (e.fb.boOk = false ∨ e.fb.importOk = false → v.fbId = 0)
          ∧ (e.fb.boOk = true → e.fb.importOk = true → v.fbId = s.nextFbId)) := by
  constructor
  · intro hfail
    unfold drmmode_xr_create_virtual_output
    rw [hfind]
    rcases hfail with h1 | h1 | h1 | h1 | h1 <;> simp [h1]
  · intro h1 h2 h3 h4 h5 hfb
    obtain ⟨o, p, rn, c, vo, fb⟩ := e
    simp only at h1 h2 h3 h4 h5 hfb
    subst h1 h2 h3 h4 h5
    obtain ⟨b1, b2, b3, b4, b5⟩ := fb
    unfold drmmode_xr_create_virtual_output
    rw [hfind]
    cases b1 <;> cases b2 <;> cases b3 <;> cases b4 <;> cases b5 <;>
      first
        | refine ⟨_, rfl, rfl, rfl, rfl, rfl, ?_, ?_⟩ <;>
            simp [drmmode_xr_create_offscreen_framebuffer, drmmode_xr_virtual_set_modes]
        | simp [FbEnv.ok] at hfb

theorem create_rollback_amended_witness :
    drmmode_xr_create_virtual_output
        ⟨false, true, true, true, true, ⟨true, true, true, true, true⟩⟩
        ⟨[], 1⟩ "XR-0" 1920 1080 60 = (none, ⟨[], 1⟩) :=
  (create_rollback_amended
      ⟨false, true, true, true, true, ⟨true, true, true, true, true⟩⟩
      ⟨[], 1⟩ "XR-0" 1920 1080 60 rfl).1 (Or.inl rfl)

/-- C8 (counterexample): for the deletion of the fully formed sample
output, "mark disconnected and notify" does NOT occur before the
buffer/framebuffer destruction — the subsequence check for the claimed
order fails on the actual teardown trace while the reverse order holds. -/
theorem delete_order_counterexample :
    isSubseqOf [DelEvent.disconnectNotify, DelEvent.destroyFramebuffer]
        ((drmmode_xr_delete_virtual_output sampleState "XR-0").2.2) = false
    ∧ isSubseqOf [DelEvent.destroyFramebuffer, DelEvent.disconnectNotify]
        ((drmmode_xr_delete_virtual_output sampleState "XR-0").2.2) = true := by
  refine ⟨by decide, by decide⟩

/-- C8 (amended): deleting a registered, fully formed virtual output
succeeds and performs the teardown in this fixed order: remove the
record from the table, destroy the buffer and framebuffer, destroy the
Scanout Engine (CRTC), mark the output disconnected and notify
listeners, destroy the protocol-visible RandR output, destroy the xf86
output object, release the record. -/
theorem delete_teardown_actual_order (s : MsState) (name : String) (v : VOut)
    (hfind : drmmode_xr_find_virtual_output s name = some v)
    (ho : v.hasOutput = true) (hc : v.hasCrtc = true) (hr : v.hasRandr = true) :
    (drmmode_xr_delete_virtual_output s name).1 = true
    ∧ (drmmode_xr_delete_virtual_output s name).2.2 =
      [DelEvent.removeFromTable, DelEvent.destroyFramebuffer, DelEvent.destroyCrtc,
       DelEvent.disconnectNotify, DelEvent.destroyRandrOutput,
       DelEvent.destroyXf86Output, DelEvent.freeRecord] := by
  unfold drmmode_xr_delete_virtual_output
  rw [hfind]
  exact ⟨rfl, by simp [ho, hc, hr]⟩

theorem delete_teardown_actual_order_witness :
    (drmmode_xr_delete_virtual_output sampleState "XR-0").1 = true
    ∧ (drmmode_xr_delete_virtual_output sampleState "XR-0").2.2 =
      [DelEvent.removeFromTable, DelEvent.destroyFramebuffer, DelEvent.destroyCrtc,
       DelEvent.disconnectNotify, DelEvent.destroyRandrOutput,
       DelEvent.destroyXf86Output, DelEvent.freeRecord] :=
  delete_teardown_actual_order sampleState "XR-0" sampleVOut rfl rfl rfl rfl

/-- C9: a mode-set on a virtual CRTC always reports success, and when
the mode dimensions differ from the owning output's stored dimensions
the record is updated by destroying the buffer and reallocating it at
the new size: on allocator success the record carries a buffer of the
new dimensions, the fresh identifier is stored and published, and the
stored dimensions are updated; on allocator failure the call still
reports success while the record is left with no buffer, internal
identifier, the old stored dimensions and the previously published
(now stale) identifier — the internal framebuffer_id field is 0 when the
failure precedes the kernel import, and keeps the stale freshly-imported
identifier when a post-import step fails, since the source removes the
kernel framebuffer without resetting the field.  The mode, x, y and
rotation are stored in every case. -/
theorem set_mode_major_stores_and_succeeds (e : FbEnv) (s : MsState) (name : String)
    (mw mh rot x y : Int) (freshId : Nat) (v : VOut)
    (hr : v.hasRandr = true) (hdims : ¬ (v.width = mw ∧ v.height = mh)) :
    (drmmode_xr_virtual_crtc_set_mode_major e s name (some (mw, mh)) rot x y).1 = true
    ∧ (let u := xr_crtc_apply_mode e freshId v mw mh rot x y
       u.crtcMode = some (mw, mh) ∧ u.crtcX = x ∧ u.crtcY = y ∧ u.crtcRot = rot
       ∧ (FbEnv.ok e = true → u.hasBo = true ∧ u.boWidth = mw ∧ u.boHeight = mh
            ∧ u.fbId = freshId ∧ u.pubFbId = freshId ∧ u.width = mw ∧ u.height = mh)
       ∧ (FbEnv.ok e = false → u.hasBo = false ∧ u.hasPixmap = false
            ∧ u.pubFbId = v.pubFbId ∧ u.width = v.width ∧ u.height = v.height
            ∧ (e.boOk = false ∨ e.importOk = false → u.fbId = 0)
            ∧ (e.boOk = true → e.importOk = true → u.fbId = freshId))) := by
  constructor
  · unfold drmmode_xr_virtual_crtc_set_mode_major
    cases hq : drmmode_xr_find_virtual_output s name <;> simp [hq]
  · obtain ⟨b1, b2, b3, b4, b5⟩ := e
    cases b1 <;> cases b2 <;> cases b3 <;> cases b4 <;> cases b5 <;>
      simp [xr_crtc_apply_mode, drmmode_xr_create_offscreen_framebuffer,
            drmmode_xr_destroy_offscreen_framebuffer, FbEnv.ok, hdims, hr]

theorem set_mode_major_stores_and_succeeds_witness :
    (drmmode_xr_virtual_crtc_set_mode_major ⟨true, true, true, true, true⟩ sampleState
        "XR-0" (some (3840, 2160)) 0 0 0).1 = true
    ∧ (let u := xr_crtc_apply_mode ⟨true, true, true, true, true⟩ 8 sampleVOut 3840 2160 0 0 0
       u.crtcMode = some (3840, 2160) ∧ u.crtcX = 0 ∧ u.crtcY = 0 ∧ u.crtcRot = 0
       ∧ (FbEnv.ok ⟨true, true, true, true, true⟩ = true → u.hasBo = true ∧ u.boWidth = 3840
            ∧ u.boHeight = 2160 ∧ u.fbId = 8 ∧ u.pubFbId = 8 ∧ u.width = 3840 ∧ u.height = 2160)
       ∧ (FbEnv.ok ⟨true, true, true, true, true⟩ = false → u.hasBo = false
            ∧ u.hasPixmap = false ∧ u.pubFbId = sampleVOut.pubFbId
            ∧ u.width = sampleVOut.width ∧ u.height = sampleVOut.height
            ∧ (FbEnv.boOk ⟨true, true, true, true, true⟩ = false
                ∨ FbEnv.importOk ⟨true, true, true, true, true⟩ = false → u.fbId = 0)
            ∧ (FbEnv.boOk ⟨true, true, true, true, true⟩ = true →
                FbEnv.importOk ⟨true, true, true, true, true⟩ = true → u.fbId = 8))) :=
  set_mode_major_stores_and_succeeds ⟨true, true, true, true, true⟩ sampleState "XR-0"
    3840 2160 0 0 0 8 sampleVOut rfl (by decide)

end XrVirtual
